import Mathlib

set_option maxRecDepth 8000

/-!
Verification of the md-pdf conversion pipeline (`src/md_pdf/__init__.py`).

The development has three parts:

1. a small theory of substring-occurrence counting over `List Char`, used to
   state and prove properties such as "the assembled document contains exactly
   one `@page` rule";
2. a shallow embedding of the source module: its CSS string constants, theme
   and page-size selection, HTML document assembly, font-face CSS generation,
   path-suffix handling and the conversion entry point.  The external
   collaborators (the Markdown transformer, the Pygments stylesheet generator
   and the WeasyPrint rasterizer) are modelled as opaque function parameters,
   since the claims only concern how the module drives them;
3. theorems settling the specification claims about those definitions.
-/

namespace MdPdf

/-! ### Part 1: substring-occurrence counting -/

/-- Number of positions of a character list at which the pattern `pat` occurs
(occurrences may overlap; each starting position is counted once). -/
def countOcc (pat : List Char) : List Char → Nat
  | [] => 0
  | c :: rest => (if pat.isPrefixOf (c :: rest) then 1 else 0) + countOcc pat rest

/-- Occurrences of `pat` that start inside `a` when `a` is followed by the
list `b` (such occurrences may run over into `b`). -/
def countAux (pat b : List Char) : List Char → Nat
  | [] => 0
  | c :: rest => (if pat.isPrefixOf (c :: (rest ++ b)) then 1 else 0) + countAux pat b rest

/-- No nonempty suffix of `a` that is shorter than `pat` is a prefix of `pat`.
Under this condition, occurrences of `pat` starting inside `a` cannot run over
the right edge of `a`. -/
def SuffixClean (pat a : List Char) : Prop :=
  ∀ k, k < pat.length → 0 < k → (a.drop (a.length - k)).isPrefixOf pat = false

/-- When the list `u` is followed by `front`, an occurrence of `pat` starting
inside `u` would have to continue with a proper suffix of `pat` matching the
start of `front`; `NoSpan` rules this out. -/
def NoSpan (pat front : List Char) : Prop :=
  ∀ k, k < pat.length → 0 < k →
    ((pat.drop k).take front.length).isPrefixOf front = false

instance (pat a : List Char) : Decidable (SuffixClean pat a) := by
  unfold SuffixClean; infer_instance

instance (pat front : List Char) : Decidable (NoSpan pat front) := by
  unfold NoSpan; infer_instance

/-! ### Part 2: the embedded program -/

/-! The module-level CSS constants.  The two larger ones are written as
concatenations of consecutive chunk literals (cut right after a newline,
or after a comma-space for the unicode-range list) so that every kernel
evaluation over them stays below a safe recursion depth; the concatenated
text is character-for-character the Python constant. -/

def cssBaseChunk1 : String :=
  "\n* \x7b\n    box-sizing: border-box;\n    margin: 0;\n    padding: 0;\n\x7d\n\nbody \x7b\n    font-family: \"NotoColorEmoji\", -apple-system, \"Segoe UI\", Helvetica, Arial, sans-serif;\n    font-size: 16px;\n    line-height: 1.5;\n    max-width: 860px;\n    margin: 0 auto;\n    padding: 40px 32px;\n\x7d\n\nh1, h2, h3, h4, h5, h6 \x7b\n    margin-top: 24px;\n    margin-bottom: 16px;\n    font-weight: 600;\n    line-height: 1.25;\n\x7d\n\nh1 \x7b font-size: 2em; padding-bottom: 0.3em; border-bottom-width: 1px; border-bottom-style: solid; \x7d\nh2 \x7b font-size: 1.5em; padding-bottom: 0.3em; border-bottom-width: 1px; border-bottom-style: solid; \x7d\nh3 \x7b font-size: 1.25em; \x7d\nh4 \x7b font-size: 1em; \x7d\n"

def cssBaseChunk2 : String :=
  "h5 \x7b font-size: 0.875em; \x7d\nh6 \x7b font-size: 0.85em; \x7d\n\np \x7b\n    margin-top: 0;\n    margin-bottom: 16px;\n\x7d\n\na \x7b\n    text-decoration: none;\n\x7d\n\nul, ol \x7b\n    margin-top: 0;\n    margin-bottom: 16px;\n    padding-left: 2em;\n\x7d\n\nli \x7b\n    margin-top: 4px;\n\x7d\n\nul ul, ul ol, ol ul, ol ol \x7b\n    margin-top: 0;\n    margin-bottom: 0;\n\x7d\n\nblockquote \x7b\n    margin: 0 0 16px 0;\n    padding: 0 1em;\n    border-left-width: 4px;\n    border-left-style: solid;\n\x7d\n\nblockquote > :first-child \x7b margin-top: 0; \x7d\nblockquote > :last-child  \x7b margin-bottom: 0; \x7d\n\nhr \x7b\n    height: 4px;\n    padding: 0;\n    margin: 24px 0;\n    border: 0;\n\x7d\n\n/* Inline code */\ncode \x7b\n"

def cssBaseChunk3 : String :=
  "    font-family: \"SFMono-Regular\", Consolas, \"Liberation Mono\", Menlo, monospace;\n    font-size: 85%;\n    padding: 0.2em 0.4em;\n    border-radius: 6px;\n\x7d\n\n/* Code blocks */\npre \x7b\n    font-family: \"SFMono-Regular\", Consolas, \"Liberation Mono\", Menlo, monospace;\n    font-size: 85%;\n    line-height: 1.45;\n    border-radius: 6px;\n    border-width: 1px;\n    border-style: solid;\n    padding: 16px;\n    margin-top: 0;\n    margin-bottom: 16px;\n    white-space: pre-wrap;\n    word-wrap: break-word;\n\x7d\n\npre code \x7b\n    display: block;\n    font-size: 100%;\n    padding: 0;\n    margin: 0;\n    background-color: transparent;\n    border: 0;\n"

def cssBaseChunk4 : String :=
  "    border-radius: 0;\n    white-space: pre-wrap;\n    word-break: normal;\n\x7d\n\n.codehilite \x7b\n    margin-bottom: 16px;\n    border-radius: 6px;\n    border-width: 1px;\n    border-style: solid;\n    overflow: hidden;\n\x7d\n\n.codehilite pre \x7b\n    margin: 0;\n    border: 0;\n    border-radius: 0;\n    padding: 16px;\n\x7d\n\n/* Tables */\ntable \x7b\n    width: 100%;\n    border-collapse: collapse;\n    border-spacing: 0;\n    margin-top: 0;\n    margin-bottom: 16px;\n\x7d\n\ntr \x7b\n    border-top-width: 1px;\n    border-top-style: solid;\n\x7d\n\nth, td \x7b\n    padding: 6px 13px;\n    border-width: 1px;\n    border-style: solid;\n    text-align: left;\n    vertical-align: top;\n\x7d\n\nth \x7b\n"

def cssBaseChunk5 : String :=
  "    font-weight: 600;\n\x7d\n\nimg \x7b\n    max-width: 100%;\n    height: auto;\n\x7d\n\nstrong \x7b font-weight: 600; \x7d\nem     \x7b font-style: italic; \x7d\ndel    \x7b text-decoration: line-through; \x7d\n\ndt \x7b\n    font-weight: bold;\n    margin-top: 8px;\n\x7d\n\ndd \x7b\n    margin-left: 2em;\n    margin-bottom: 4px;\n\x7d\n\n.footnote \x7b\n    font-size: 85%;\n    border-top-width: 1px;\n    border-top-style: solid;\n    margin-top: 32px;\n    padding-top: 16px;\n\x7d\n\n/* Page break helpers */\nh1, h2, h3          \x7b page-break-after: avoid; \x7d\npre, blockquote, table \x7b page-break-inside: avoid; \x7d\n"

/-- CSS, structural rules (source lines 43-220, constant `GITHUB_CSS_BASE`). -/
def GITHUB_CSS_BASE : String := cssBaseChunk1 ++ cssBaseChunk2 ++ cssBaseChunk3 ++ cssBaseChunk4 ++ cssBaseChunk5

/-- CSS, light-mode colors (source lines 226-265, constant `GITHUB_CSS_LIGHT`). -/
def GITHUB_CSS_LIGHT : String :=
  "\nbody \x7b\n    background-color: #ffffff;\n    color: #1f2328;\n\x7d\n\nh1, h2, h3, h4, h5, h6 \x7b color: #1f2328; \x7d\nh1, h2 \x7b border-bottom-color: #d1d9e0; \x7d\nh6 \x7b color: #59636e; \x7d\n\na \x7b color: #0969da; \x7d\n\nblockquote \x7b\n    border-left-color: #d1d9e0;\n    color: #59636e;\n\x7d\n\nhr \x7b background-color: #d1d9e0; \x7d\n\ncode \x7b\n    background-color: #f6f8fa;\n    color: #1f2328;\n\x7d\n\npre \x7b\n    background-color: #f6f8fa;\n    border-color: #d1d9e0;\n    color: #1f2328;\n\x7d\n\n.codehilite \x7b border-color: #d1d9e0; \x7d\n.codehilite pre \x7b background-color: #f6f8fa; color: #1f2328; \x7d\n\ntr \x7b background-color: #ffffff; border-top-color: #d1d9e0; \x7d\ntr:nth-child(2n) \x7b background-color: #f6f8fa; \x7d\nth, td \x7b border-color: #d1d9e0; \x7d\nth \x7b background-color: #f6f8fa; \x7d\n\n.footnote \x7b border-top-color: #d1d9e0; \x7d\n"

/-- CSS, dark-mode colors (source lines 271-310, constant `GITHUB_CSS_DARK`). -/
def GITHUB_CSS_DARK : String :=
  "\nbody \x7b\n    background-color: #0d1117;\n    color: #e6edf3;\n\x7d\n\nh1, h2, h3, h4, h5, h6 \x7b color: #e6edf3; \x7d\nh1, h2 \x7b border-bottom-color: #30363d; \x7d\nh6 \x7b color: #8b949e; \x7d\n\na \x7b color: #4493f8; \x7d\n\nblockquote \x7b\n    border-left-color: #3d444d;\n    color: #8b949e;\n\x7d\n\nhr \x7b background-color: #3d444d; \x7d\n\ncode \x7b\n    background-color: #161b22;\n    color: #e6edf3;\n\x7d\n\npre \x7b\n    background-color: #0d1117;\n    border-color: #30363d;\n    color: #e6edf3;\n\x7d\n\n.codehilite \x7b border-color: #30363d; \x7d\n.codehilite pre \x7b background-color: #0d1117; color: #e6edf3; \x7d\n\ntr \x7b background-color: #0d1117; border-top-color: #30363d; \x7d\ntr:nth-child(2n) \x7b background-color: #161b22; \x7d\nth, td \x7b border-color: #30363d; \x7d\nth \x7b background-color: #161b22; \x7d\n\n.footnote \x7b border-top-color: #30363d; \x7d\n"

def emojiRangeChunk1 : String :=
  "U+200D, U+203C, U+2049, U+20E3, U+2122, U+2139, U+2194-2199, U+21A9-21AA, U+231A-231B, U+2328, U+23CF, U+23E9-23F3, U+23F8-23FA, U+24C2, U+25AA-25AB, U+25B6, U+25C0, U+25FB-25FE, U+2600-2604, U+260E, U+2611, U+2614-2615, U+2618, U+261D, U+2620, U+2622-2623, U+2626, U+262A, U+262E-262F, U+2638-263A, U+2640, U+2642, U+2648-2653, U+265F-2660, U+2663, U+2665-2666, U+2668, U+267B, U+267E-267F, U+2692-2697, U+2699, U+269B-269C, U+26A0-26A1, U+26A7, U+26AA-26AB, U+26B0-26B1, U+26BD-26BE, U+26C4-26C5, U+26CE-26CF, U+26D1, U+26D3-26D4, U+26E9-26EA, U+26F0-26F5, U+26F7-26FA, U+26FD, U+2702, U+2705, "

def emojiRangeChunk2 : String :=
  "U+2708-270D, U+270F, U+2712, U+2714, U+2716, U+271D, U+2721, U+2728, U+2733-2734, U+2744, U+2747, U+274C, U+274E, U+2753-2755, U+2757, U+2763-2764, U+2795-2797, U+27A1, U+27B0, U+27BF, U+2934-2935, U+2B05-2B07, U+2B1B-2B1C, U+2B50, U+2B55, U+3030, U+303D, U+3297, U+3299, U+FE00-FE0F, U+1F000-1F02F, U+1F0A0-1F0FF, U+1F100-1F1FF, U+1F200-1F2FF, U+1F300-1F5FF, U+1F600-1F64F, U+1F650-1F6FF, U+1F700-1F77F, U+1F780-1F7FF, U+1F800-1F8FF, U+1F900-1F9FF, U+1FA00-1FA6F, U+1FA70-1FAFF"

/-- Unicode ranges covering emoji and symbol blocks (source lines 320-345,
constant `_EMOJI_UNICODE_RANGE`; the adjacent Python string literals are
concatenated). -/
def _EMOJI_UNICODE_RANGE : String := emojiRangeChunk1 ++ emojiRangeChunk2

/-- Source line 364: `style = "default" if mode == "LIGHT" else "github-dark"`.
Pygments' `default` style is its light-background style; `github-dark` is a
dark-background style matching the dark color block's palette. -/
def pygments_style (mode : String) : String :=
  if mode = "LIGHT" then "default" else "github-dark"

/-- Source lines 362-366, `_get_pygments_css`.  The Pygments call
`HtmlFormatter(style=style, cssclass="codehilite").get_style_defs(".codehilite")`
is an external collaborator, modelled by the function parameter `styleDefs`
from style names to CSS text. -/
def _get_pygments_css (styleDefs : String → String) (mode : String) : String :=
  styleDefs (pygments_style mode)

/-- Source line 371: `theme_css = GITHUB_CSS_LIGHT if mode == "LIGHT" else GITHUB_CSS_DARK`. -/
def theme_css (mode : String) : String :=
  if mode = "LIGHT" then GITHUB_CSS_LIGHT else GITHUB_CSS_DARK

/-- Source line 372: `page_size = "letter" if size == "LETTER" else "A4"`. -/
def page_size (size : String) : String :=
  if size = "LETTER" then "letter" else "A4"

/-! The f-string template of `_build_html` (source lines 373-385), cut at the
five interpolation points.  `HTML_PRE ++ page_size size ++ HTML_MARGIN ++
margin ++ HTML_STYLE_OPEN ++ GITHUB_CSS_BASE ++ STYLE_JOIN ++ theme_css mode
++ STYLE_JOIN ++ pygments_css ++ HTML_BODY_OPEN ++ body_html ++ HTML_CLOSE`
is exactly the rendered template ( `{{`/`}}` in the f-string are literal
braces). -/

def HTML_PRE : String :=
  "<!DOCTYPE html>\n<html lang=\"en\">\n<head>\n<meta charset=\"utf-8\">\n<style>@page \x7b size: "

def HTML_MARGIN : String := "; margin: "

def HTML_STYLE_OPEN : String := "in; \x7d</style>\n<style>"

def STYLE_JOIN : String := "</style>\n<style>"

def HTML_BODY_OPEN : String := "</style>\n</head>\n<body>\n"

def HTML_CLOSE : String := "\n</body>\n</html>"

def HEAD_CLOSE : String := "</style>\n</head>\n"

/-- Source lines 369-385, `_build_html`: assemble a complete HTML document
with all styles inlined.  The `margin` parameter stands for the text that the
f-string interpolates for the float `margin`, i.e. Python's `str()` rendering
of the number. -/
def _build_html (body_html pygments_css mode size margin : String) : String :=
  HTML_PRE ++ page_size size ++ HTML_MARGIN ++ margin ++ HTML_STYLE_OPEN ++
    GITHUB_CSS_BASE ++ STYLE_JOIN ++ theme_css mode ++ STYLE_JOIN ++
    pygments_css ++ HTML_BODY_OPEN ++ body_html ++ HTML_CLOSE

/-- The `<head>` part of the assembled document (everything before the
`<body>` line). -/
def build_html_head (pygments_css mode size margin : String) : String :=
  HTML_PRE ++ page_size size ++ HTML_MARGIN ++ margin ++ HTML_STYLE_OPEN ++
    GITHUB_CSS_BASE ++ STYLE_JOIN ++ theme_css mode ++ STYLE_JOIN ++
    pygments_css ++ HEAD_CLOSE

/-! ### Strings and paths

Character-level models of the Python string and `pathlib` operations the
module uses.  Python indexes and slices strings by character, which matches
`List Char`. -/

/-- Python's `str.split(sep)` for a one-character separator. -/
def splitOnSep (sep : Char) : List Char → List (List Char)
  | [] => [[]]
  | c :: rest =>
    match splitOnSep sep rest with
    | g :: gs => if c = sep then [] :: g :: gs else (c :: g) :: gs
    | [] => [[]]

/-- Python's `in` operator on strings (substring containment). -/
def strContains (s pat : String) : Bool :=
  countOcc pat.data s.data != 0

/-- `str.startswith`. -/
def strStartsWith (s pre : String) : Bool :=
  pre.data.isPrefixOf s.data

/-- `str.endswith`. -/
def strEndsWith (s suf : String) : Bool :=
  suf.data.isSuffixOf s.data

/-- The character-based slice `s[:n]`. -/
def strTake (s : String) (n : Nat) : String :=
  String.mk (s.data.take n)

/-- The character-based slice `s[n:]`. -/
def strDrop (s : String) (n : Nat) : String :=
  String.mk (s.data.drop n)

/-- `PurePath.suffix` (CPython `pathlib`): `i = name.rfind('.')`;
the suffix is `name[i:]` if `0 < i < len(name) - 1`, else empty. -/
def pySuffix (name : String) : String :=
  match name.data.reverse.findIdx? (fun c => c == '.') with
  | none => ""
  | some k =>
    let i := name.length - 1 - k
    if 0 < i ∧ i < name.length - 1 then strDrop name i else ""

/-- `PurePath.stem`: the final path component without its suffix. -/
def pyStem (name : String) : String :=
  strTake name (name.length - (pySuffix name).length)

/-- The root of a POSIX path as parsed by `pathlib`: exactly two leading
slashes give the special root `//`, any other run of leading slashes gives
`/`, no leading slash gives the empty root. -/
def pathRoot (p : String) : String :=
  if strStartsWith p "//" && !(strStartsWith p "///") then "//"
  else if strStartsWith p "/" then "/" else ""

/-- The parsed components of a POSIX path: `pathlib` drops empty components
and `.` components. -/
def pathComponents (p : String) : List String :=
  ((splitOnSep '/' p.data).map String.mk).filter (fun c => c != "" && c != ".")

/-- `PurePath.name`: the final component, or `""` when there is none. -/
def pathName (p : String) : String :=
  (pathComponents p).getLastD ""

/-- Reassembling a path from root and components, as `str(PurePosixPath(...))`. -/
def pathStr (root : String) (comps : List String) : String :=
  root ++ String.intercalate "/" comps

/-- `PurePath.parent`. -/
def pathParent (p : String) : String :=
  let comps := (pathComponents p).dropLast
  if comps.isEmpty then (if pathRoot p = "" then "." else pathRoot p)
  else pathStr (pathRoot p) comps

/-- CPython `PurePath.with_suffix(suffix)`: reject a suffix containing the
separator, a suffix that does not start with a dot, or a bare dot; reject a
path with an empty name; otherwise replace the old suffix (or append, when
there is none) and rebuild the path.  `Except.error` models the raised
`ValueError`. -/
def with_suffix (p suffix : String) : Except String String :=
  if strContains suffix "/" then Except.error ("Invalid suffix " ++ suffix)
  else if (suffix ≠ "" ∧ strStartsWith suffix "." = false) ∨ suffix = "." then
    Except.error ("Invalid suffix " ++ suffix)
  else
    let name := pathName p
    if name = "" then Except.error (p ++ " has an empty name")
    else
      let old := pySuffix name
      let newName :=
        if old = "" then name ++ suffix
        else strTake name (name.length - old.length) ++ suffix
      Except.ok (pathStr (pathRoot p) ((pathComponents p).dropLast ++ [newName]))

/-- Source line 479 of `main`:
`output_path = Path(args.output) if args.output else input_path.with_suffix(".pdf")`.
Note that Python truthiness sends an *empty* `--output` argument to the
default branch as well. -/
def default_output_path (outputArg : Option String) (input : String) :
    Except String String :=
  match outputArg with
  | some o => if o = "" then with_suffix input ".pdf" else Except.ok o
  | none => with_suffix input ".pdf"

/-! ### Fonts -/

/-- Source lines 348-359, the body of the `for` loop of `_font_face_css`:
one `@font-face` declaration for a font file.  `stem` is the filename minus
its suffix, the family name is the part of the stem before the first `-`,
and the declaration carries the emoji unicode-range list exactly when the
lower-cased family name contains `"emoji"`.  The `uri` parameter models
`Path.as_uri()`, mapping a file name in the bundled fonts directory to its
`file://` URL.  `font_family` is the loop's `family = stem.split("-")[0]`. -/
def font_family (fname : String) : String :=
  String.mk ((splitOnSep '-' (pyStem fname).data).headD [])

def font_face_rule (uri : String → String) (fname : String) : String :=
  let family := font_family fname
  let unicode_range :=
    if strContains family.toLower "emoji" then
      " unicode-range: " ++ _EMOJI_UNICODE_RANGE ++ ";"
    else ""
  "@font-face \x7b font-family: \"" ++ family ++ "\"; src: url(\"" ++
    uri fname ++ "\");" ++ unicode_range ++ " \x7d"

/-- The `.ttf` entries of the fonts directory in sorted order, modelling
`sorted(_FONTS_DIR.glob("*.ttf"))`.  `files` is the directory listing (in
arbitrary enumeration order); `glob("*.ttf")` keeps the names ending in
`.ttf`, and `sorted` orders them lexicographically.  (Python's sort is
modelled by `insertionSort`; on a linear order any two sorting algorithms
agree.) -/
def ttf_files (files : List String) : List String :=
  (files.filter (fun f => strEndsWith f ".ttf")).insertionSort (· ≤ ·)

/-- Source lines 348-359, `_font_face_css`: the `@font-face` rules for the
bundled fonts, one per `.ttf` file, joined by newlines. -/
def _font_face_css (uri : String → String) (files : List String) : String :=
  String.intercalate "\n" ((ttf_files files).map (font_face_rule uri))

/-! ### The conversion entry point -/

/-- The file system visible to `convert`: an association list from paths to
file contents.  `read_file` models `Path.exists` plus `Path.read_text`
(a path exists exactly when reading it succeeds), `write_file` models
creating or overwriting the target file. -/
abbrev FS := List (String × String)

def read_file (fs : FS) (p : String) : Option String :=
  fs.lookup p

def write_file (fs : FS) (p contents : String) : FS :=
  (p, contents) :: fs

/-- Result of `convert`: either the `FileNotFoundError` raised on line 413
(carrying its message), or normal completion. -/
inductive ConvertResult where
  | fileNotFound (msg : String)
  | ok
deriving DecidableEq

/-- The external collaborators used by `convert`, as opaque functions:
`mdToHtml` is `markdown.Markdown(...).convert` with the fixed extension set
of lines 17-37; `styleDefs` is Pygments (see `_get_pygments_css`);
`renderPdf` is `weasyprint.HTML(string=..., base_url=...).write_pdf`
applied to the assembled document, the font-face stylesheet and the base
URL; `fontUri`/`fontFiles` describe the bundled fonts directory. -/
structure Ext where
  mdToHtml : String → String
  styleDefs : String → String
  renderPdf : String → String → String → String
  fontUri : String → String
  fontFiles : List String

/-- Source lines 392-431, `convert`: check that the input exists (else raise
`FileNotFoundError` with the message of line 413), read it, transform the
Markdown to an HTML body fragment, build the Pygments CSS and the full HTML
document, render the PDF (with the font-face stylesheet and the input's
parent directory as base URL) and write it to `output_path`.  The returned
`FS` is the file system after the call: unchanged when the error is raised,
with the output file written on success. -/
def convert (ext : Ext) (fs : FS)
    (input_path output_path mode size margin : String) : ConvertResult × FS :=
  match read_file fs input_path with
  | none => (ConvertResult.fileNotFound ("Input file not found: " ++ input_path), fs)
  | some md_text =>
    let body_html := ext.mdToHtml md_text
    let pygments_css := _get_pygments_css ext.styleDefs mode
    let full_html := _build_html body_html pygments_css mode size margin
    let font_css := _font_face_css ext.fontUri ext.fontFiles
    let pdf := ext.renderPdf full_html font_css (pathParent input_path)
    (ConvertResult.ok, write_file fs output_path pdf)

/-- The intermediate `full_html` value computed by `convert` (lines 415-424),
exposed for the specification: `none` when the input is missing. -/
def convert_full_html (ext : Ext) (fs : FS)
    (input_path mode size margin : String) : Option String :=
  match read_file fs input_path with
  | none => none
  | some md_text =>
    some (_build_html (ext.mdToHtml md_text)
      (_get_pygments_css ext.styleDefs mode) mode size margin)

/-! ### The CLI driver -/

/-- Outcome of the `convert(...)` call inside `main`'s `try` block (source
lines 481-489): normal return, a raised `FileNotFoundError`, or any other
raised exception (from the external libraries), with `str(e)`. -/
inductive PyOutcome where
  | ok (output_path : String)
  | raisedFileNotFound (msg : String)
  | raisedOther (msg : String)

/-- Source lines 481-489: the `try`/`except` of `main`.  Returns the process
exit status and the lines printed to standard error: on success exit 0 and
`PDF written to: <output>`; on `FileNotFoundError` exit 1 and `Error: <msg>`;
on any other exception exit 1 and `Conversion failed: <msg>`. -/
def main_try : PyOutcome → Nat × List String
  | PyOutcome.ok output_path => (0, ["PDF written to: " ++ output_path])
  | PyOutcome.raisedFileNotFound msg => (1, ["Error: " ++ msg])
  | PyOutcome.raisedOther msg => (1, ["Conversion failed: " ++ msg])

/-- The outcome of the `convert` call of line 482 in terms of the `convert`
model (the external collaborators of `Ext` are total functions here, so the
`raisedOther` case does not arise from the model itself). -/
def main_convert_outcome (ext : Ext) (fs : FS)
    (input_path output_path mode size margin : String) : PyOutcome :=
  match (convert ext fs input_path output_path mode size margin).1 with
  | ConvertResult.fileNotFound m => PyOutcome.raisedFileNotFound m
  | ConvertResult.ok => PyOutcome.ok output_path

/-- Model instantiation of the external collaborators used by the concrete
witnesses. -/
def extWitness : Ext :=
  { mdToHtml := fun s => "<p>" ++ s ++ "</p>"
    styleDefs := fun s => ".codehilite .k color: " ++ s
    renderPdf := fun html _ _ => html
    fontUri := fun s => "file:///fonts/" ++ s
    fontFiles := ["NotoColorEmoji-Regular.ttf"] }

/-! ### Theorems -/

theorem countOcc_append (pat b : List Char) :
    ∀ a : List Char, countOcc pat (a ++ b) = countAux pat b a + countOcc pat b
  | [] => by simp [countAux, countOcc]
  | c :: rest => by
    show countOcc pat (c :: (rest ++ b)) = _
    rw [countOcc, countAux, countOcc_append pat b rest, Nat.add_assoc]

theorem bool_eq_of_iff {x y : Bool} (h : x = true ↔ y = true) : x = y := by
  cases x <;> cases y <;> simp_all

theorem prefix_append_iff_of_le {p a b : List Char} (h : p.length ≤ a.length) :
    p <+: a ++ b ↔ p <+: a := by
  constructor
  · intro hp
    exact List.prefix_of_prefix_length_le hp (List.prefix_append a b) h
  · intro hp
    exact hp.trans (List.prefix_append a b)

theorem prefix_take_mono {p q : List Char} (h : p <+: q) (n : Nat) :
    p.take n <+: q.take n := by
  obtain ⟨t, rfl⟩ := h
  rw [List.take_append_eq_append_take]
  exact List.prefix_append _ _

theorem drop_prefix_of_prefix_append {p a b : List Char} (hlen : a.length ≤ p.length)
    (h : p <+: a ++ b) : a <+: p ∧ p.drop a.length <+: b := by
  have hap : a <+: p := List.prefix_of_prefix_length_le (List.prefix_append a b) h hlen
  refine ⟨hap, ?_⟩
  obtain ⟨t, ht⟩ := h
  have htake : p.take a.length = a := (List.prefix_iff_eq_take.mp hap).symm
  have hp : p = a ++ p.drop a.length := by
    conv_lhs => rw [← List.take_append_drop a.length p]
    rw [htake]
  rw [hp, List.append_assoc] at ht
  exact ⟨t, List.append_cancel_left ht⟩

theorem countAux_eq_countOcc_of_clean (pat b : List Char) :
    ∀ a : List Char,
      (∀ s : List Char, s <:+ a → 0 < s.length → s.length < pat.length →
        s.isPrefixOf pat = false) →
      countAux pat b a = countOcc pat a
  | [], _ => by simp [countAux, countOcc]
  | c :: rest, H => by
    have hrest := countAux_eq_countOcc_of_clean pat b rest (fun s hs h1 h2 =>
      H s (hs.trans (List.suffix_cons c rest)) h1 h2)
    have hcond : pat.isPrefixOf (c :: (rest ++ b)) = pat.isPrefixOf (c :: rest) := by
      rcases le_or_lt pat.length (c :: rest).length with hle | hlt
      · apply bool_eq_of_iff
        simp only [List.isPrefixOf_iff_prefix]
        rw [← List.cons_append]
        exact prefix_append_iff_of_le hle
      · have hR : pat.isPrefixOf (c :: rest) = false := by
          rcases hx : pat.isPrefixOf (c :: rest) with _ | _
          · rfl
          · have : pat <+: c :: rest := List.isPrefixOf_iff_prefix.mp hx
            exact absurd this.length_le (Nat.not_le_of_lt hlt)
        have hL : pat.isPrefixOf (c :: (rest ++ b)) = false := by
          rcases hx : pat.isPrefixOf (c :: (rest ++ b)) with _ | _
          · rfl
          · have hpre : pat <+: (c :: rest) ++ b := by
              rw [List.cons_append]
              exact List.isPrefixOf_iff_prefix.mp hx
            have hcp : (c :: rest) <+: pat :=
              (drop_prefix_of_prefix_append (Nat.le_of_lt hlt) hpre).1
            have hfalse := H (c :: rest) (List.suffix_refl _)
              (Nat.succ_pos _) hlt
            have htrue : (c :: rest).isPrefixOf pat = true :=
              List.isPrefixOf_iff_prefix.mpr hcp
            rw [hfalse] at htrue
            exact absurd htrue (by simp)
        rw [hL, hR]
    rw [countAux, countOcc, hcond, hrest]

theorem countOcc_append_concrete {pat : List Char} (a b : List Char)
    (ha : SuffixClean pat a) :
    countOcc pat (a ++ b) = countOcc pat a + countOcc pat b := by
  rw [countOcc_append]
  congr 1
  apply countAux_eq_countOcc_of_clean
  intro s hs h1 h2
  obtain ⟨t, rfl⟩ := hs
  have hdrop : (t ++ s).drop ((t ++ s).length - s.length) = s := by
    rw [List.length_append, Nat.add_sub_cancel]
    exact List.drop_left t s
  have := ha s.length h2 h1
  rwa [hdrop] at this

theorem countAux_eq_countOcc_of_noSpan (pat front tail : List Char)
    (h : NoSpan pat front) :
    ∀ u : List Char, countAux pat (front ++ tail) u = countOcc pat u
  | [] => by simp [countAux, countOcc]
  | c :: rest => by
    have hrest := countAux_eq_countOcc_of_noSpan pat front tail h rest
    have hcond : pat.isPrefixOf (c :: (rest ++ (front ++ tail)))
        = pat.isPrefixOf (c :: rest) := by
      rcases le_or_lt pat.length (c :: rest).length with hle | hlt
      · apply bool_eq_of_iff
        simp only [List.isPrefixOf_iff_prefix]
        rw [← List.cons_append]
        exact prefix_append_iff_of_le hle
      · have hR : pat.isPrefixOf (c :: rest) = false := by
          rcases hx : pat.isPrefixOf (c :: rest) with _ | _
          · rfl
          · have : pat <+: c :: rest := List.isPrefixOf_iff_prefix.mp hx
            exact absurd this.length_le (Nat.not_le_of_lt hlt)
        have hL : pat.isPrefixOf (c :: (rest ++ (front ++ tail))) = false := by
          rcases hx : pat.isPrefixOf (c :: (rest ++ (front ++ tail))) with _ | _
          · rfl
          · have hpre : pat <+: (c :: rest) ++ (front ++ tail) := by
              rw [List.cons_append]
              exact List.isPrefixOf_iff_prefix.mp hx
            obtain ⟨-, hdrop⟩ :=
              drop_prefix_of_prefix_append (Nat.le_of_lt hlt) hpre
            have htk := prefix_take_mono hdrop front.length
            rw [List.take_left] at htk
            have hfalse := h (c :: rest).length hlt (Nat.succ_pos _)
            have htrue := List.isPrefixOf_iff_prefix.mpr htk
            rw [hfalse] at htrue
            exact absurd htrue (by simp)
        rw [hL, hR]
    rw [countAux, countOcc, hcond, hrest]

theorem countOcc_append_sym {pat : List Char} (u front tail : List Char)
    (h : NoSpan pat front) :
    countOcc pat (u ++ (front ++ tail))
      = countOcc pat u + countOcc pat (front ++ tail) := by
  rw [countOcc_append]
  congr 1
  exact countAux_eq_countOcc_of_noSpan pat front tail h u

theorem countOcc_append_sym2 {pat : List Char} (u front : List Char)
    (h : NoSpan pat front) :
    countOcc pat (u ++ front) = countOcc pat u + countOcc pat front := by
  have h2 := countOcc_append_sym u front [] h
  rwa [List.append_nil] at h2

theorem build_html_head_spec (body_html pygments_css mode size margin : String) :
    _build_html body_html pygments_css mode size margin
      = build_html_head pygments_css mode size margin
          ++ "<body>\n" ++ body_html ++ HTML_CLOSE := by
  show HTML_PRE ++ page_size size ++ HTML_MARGIN ++ margin ++ HTML_STYLE_OPEN ++
    GITHUB_CSS_BASE ++ STYLE_JOIN ++ theme_css mode ++ STYLE_JOIN ++
    pygments_css ++ HTML_BODY_OPEN ++ body_html ++ HTML_CLOSE = _
  have h : HTML_BODY_OPEN = HEAD_CLOSE ++ "<body>\n" := rfl
  rw [h, build_html_head]
  simp only [String.append_assoc]

/-! ### Part 3: the claims -/

/-- Claim C1: stylesheet composition selects by mode.  `mode = "LIGHT"`
selects the light color block and Pygments' light-background `default`
style; `mode = "DARK"` selects the dark color block and the dark-background
`github-dark` style; and every other mode value silently falls through to
the dark color block and dark highlighting style (the selection functions
are total, so no error is raised for unrecognized modes). -/
theorem spec_C1 (styleDefs : String → String) (mode : String) :
    (mode = "LIGHT" →
      pygments_style mode = "default" ∧ theme_css mode = GITHUB_CSS_LIGHT ∧
      _get_pygments_css styleDefs mode = styleDefs "default")
    ∧ (mode = "DARK" →
      pygments_style mode = "github-dark" ∧ theme_css mode = GITHUB_CSS_DARK ∧
      _get_pygments_css styleDefs mode = styleDefs "github-dark")
    ∧ (mode ≠ "LIGHT" →
      pygments_style mode = "github-dark" ∧ theme_css mode = GITHUB_CSS_DARK ∧
      _get_pygments_css styleDefs mode = styleDefs "github-dark") := by
  refine ⟨?_, ?_, ?_⟩ <;> intro h <;>
    simp [pygments_style, theme_css, _get_pygments_css, h]

theorem spec_C1_witness :
    (pygments_style "LIGHT" = "default" ∧ theme_css "LIGHT" = GITHUB_CSS_LIGHT ∧
      _get_pygments_css id "LIGHT" = id "default")
    ∧ (pygments_style "SOLARIZED" = "github-dark" ∧
      theme_css "SOLARIZED" = GITHUB_CSS_DARK ∧
      _get_pygments_css id "SOLARIZED" = id "github-dark") :=
  ⟨(spec_C1 id "LIGHT").1 rfl, (spec_C1 id "SOLARIZED").2.2 (by decide)⟩

/-- Claim C9: the theme color layer and the syntax-highlight layer always
agree, because both selections branch on the same test `mode = "LIGHT"`:
the dark Pygments style is chosen if and only if the dark color block is
chosen, and the light ones likewise, so no document mixes the light color
block with the dark highlighting style or vice versa. -/
theorem spec_C9 (mode : String) :
    (theme_css mode = GITHUB_CSS_DARK ↔ pygments_style mode = "github-dark")
    ∧ (theme_css mode = GITHUB_CSS_LIGHT ↔ pygments_style mode = "default") := by
  have hne : GITHUB_CSS_LIGHT ≠ GITHUB_CSS_DARK := by decide
  have hsn : ("default" : String) ≠ "github-dark" := by decide
  by_cases h : mode = "LIGHT" <;>
    simp [theme_css, pygments_style, h, hne, hne.symm, Ne.symm hne, hsn, hsn.symm, Ne.symm hsn]

/-- Claim C3: for a nonexistent input path, `convert` fails with the
`FileNotFoundError` carrying the path, and the file system is returned
unchanged: no output file is created or altered, and the failure happens
before any other effect of the conversion pipeline. -/
theorem spec_C3 (ext : Ext) (fs : FS)
    (input_path output_path mode size margin : String)
    (h : read_file fs input_path = none) :
    convert ext fs input_path output_path mode size margin
      = (ConvertResult.fileNotFound ("Input file not found: " ++ input_path), fs) := by
  unfold convert
  rw [h]

theorem spec_C3_witness :
    read_file ([] : FS) "missing.md" = none ∧
    convert extWitness [] "missing.md" "out.pdf" "LIGHT" "LETTER" "0.5"
      = (ConvertResult.fileNotFound "Input file not found: missing.md", []) :=
  ⟨rfl, spec_C3 extWitness [] "missing.md" "out.pdf" "LIGHT" "LETTER" "0.5" rfl⟩

/-- Claim C4: two-run noninterference of the mode argument.  For an existing
input, `convert` succeeds with `mode = "LIGHT"` and with `mode = "DARK"`
(all other arguments equal); the two assembled documents are built from the
character-identical HTML body fragment (the Markdown transformation never
sees the mode), and differ in their styling layers: distinct theme color
blocks and distinct Pygments style selections. -/
theorem spec_C4 (ext : Ext) (fs : FS)
    (input_path output_path size margin content : String)
    (h : read_file fs input_path = some content) :
    (convert ext fs input_path output_path "LIGHT" size margin).1 = ConvertResult.ok
    ∧ (convert ext fs input_path output_path "DARK" size margin).1 = ConvertResult.ok
    ∧ (∃ body_html : String,
        body_html = ext.mdToHtml content
        ∧ convert_full_html ext fs input_path "LIGHT" size margin
            = some (_build_html body_html (ext.styleDefs "default") "LIGHT" size margin)
        ∧ convert_full_html ext fs input_path "DARK" size margin
            = some (_build_html body_html (ext.styleDefs "github-dark") "DARK" size margin))
    ∧ theme_css "LIGHT" ≠ theme_css "DARK"
    ∧ pygments_style "LIGHT" ≠ pygments_style "DARK" := by
  have hne : GITHUB_CSS_LIGHT ≠ GITHUB_CSS_DARK := by decide
  refine ⟨?_, ?_, ⟨ext.mdToHtml content, rfl, ?_, ?_⟩, ?_, by decide⟩
  · unfold convert; rw [h]
  · unfold convert; rw [h]
  · unfold convert_full_html; rw [h]; rfl
  · unfold convert_full_html; rw [h]; rfl
  · simpa [theme_css] using hne

theorem spec_C4_witness :
    read_file ([("doc.md", "# Title")] : FS) "doc.md" = some "# Title" ∧
    (convert extWitness [("doc.md", "# Title")] "doc.md" "out.pdf" "LIGHT" "LETTER" "0.5").1
      = ConvertResult.ok :=
  ⟨rfl,
    (spec_C4 extWitness [("doc.md", "# Title")] "doc.md" "out.pdf" "LETTER" "0.5"
      "# Title" rfl).1⟩

/-- Claim C8: the CLI exit behavior of `main`'s `try` block.  On a normal
`convert` return the exit status is 0 and the output path is printed to the
diagnostic stream (standard error); on a raised `FileNotFoundError` the exit
status is 1 with the message prefixed `Error: `; on any other conversion
failure the exit status is 1 with the message prefixed `Conversion failed: `.
In particular a missing input file reports
`Error: Input file not found: <path>`. -/
theorem spec_C8 :
    (∀ output_path, main_try (PyOutcome.ok output_path)
        = (0, ["PDF written to: " ++ output_path]))
    ∧ (∀ msg, main_try (PyOutcome.raisedFileNotFound msg) = (1, ["Error: " ++ msg]))
    ∧ (∀ msg, main_try (PyOutcome.raisedOther msg)
        = (1, ["Conversion failed: " ++ msg]))
    ∧ (∀ (ext : Ext) (fs : FS) (input_path output_path mode size margin : String),
        read_file fs input_path = none →
        main_try (main_convert_outcome ext fs input_path output_path mode size margin)
          = (1, ["Error: Input file not found: " ++ input_path])) := by
  refine ⟨fun _ => rfl, fun _ => rfl, fun _ => rfl, ?_⟩
  intro ext fs input_path output_path mode size margin h
  unfold main_convert_outcome convert
  rw [h]
  show (1, ["Error: " ++ ("Input file not found: " ++ input_path)]) = _
  rw [← String.append_assoc]
  rfl

theorem spec_C8_witness :
    read_file ([] : FS) "gone.md" = none ∧
    main_try (main_convert_outcome extWitness [] "gone.md" "out.pdf" "LIGHT" "LETTER" "0.5")
      = (1, ["Error: Input file not found: gone.md"]) :=
  ⟨rfl, spec_C8.2.2.2 extWitness [] "gone.md" "out.pdf" "LIGHT" "LETTER" "0.5" rfl⟩

/-- Claim C10: the generated font-face CSS is deterministic in the directory
contents.  Declarations are emitted in sorted filename order, so any two
enumeration orders of the same font files produce the identical CSS string. -/
theorem spec_C10 (uri : String → String) (files₁ files₂ : List String)
    (h : files₁.Perm files₂) :
    _font_face_css uri files₁ = _font_face_css uri files₂ := by
  unfold _font_face_css ttf_files
  have hperm : (files₁.filter fun f => strEndsWith f ".ttf").Perm
      (files₂.filter fun f => strEndsWith f ".ttf") := h.filter _
  have hsorted :
      (files₁.filter fun f => strEndsWith f ".ttf").insertionSort (· ≤ ·)
        = (files₂.filter fun f => strEndsWith f ".ttf").insertionSort (· ≤ ·) :=
    List.eq_of_perm_of_sorted
      (((List.perm_insertionSort _ _).trans hperm).trans
        (List.perm_insertionSort _ _).symm)
      (List.sorted_insertionSort _ _) (List.sorted_insertionSort _ _)
  rw [hsorted]

theorem spec_C10_witness :
    (["B.ttf", "A.ttf"] : List String).Perm ["A.ttf", "B.ttf"] ∧
    _font_face_css (fun s => "file:///fonts/" ++ s) ["B.ttf", "A.ttf"]
      = _font_face_css (fun s => "file:///fonts/" ++ s) ["A.ttf", "B.ttf"] :=
  ⟨List.Perm.swap "A.ttf" "B.ttf" [],
    spec_C10 (fun s => "file:///fonts/" ++ s) _ _ (List.Perm.swap "A.ttf" "B.ttf" [])⟩

theorem strTake_length (s : String) : strTake s s.length = s := by
  unfold strTake
  show String.mk (s.data.take s.data.length) = s
  rw [List.take_length]

/-- Claim C6, as stated, is false: for an input path with an empty final
component (here the empty path, whose `pathlib` name is empty),
`Path.with_suffix(".pdf")` raises `ValueError`, so the CLI derives no output
path at all rather than the input with its suffix replaced by `.pdf`. -/
theorem spec_C6_counterexample :
    default_output_path none "" = Except.error " has an empty name" ∧
    default_output_path none "" ≠ Except.ok ".pdf" := by
  have h1 : default_output_path none "" = Except.error " has an empty name" := rfl
  refine ⟨h1, ?_⟩
  rw [h1]
  exact fun hcontra => Except.noConfusion hcontra

/-- Claim C6 (amended): for every input path whose final component is
nonempty, omitting `--output` derives the default output path as the input
path with its suffix replaced by `.pdf` — the directory part and root are
kept, and the new name is the stem of the old name followed by `.pdf`.  This
covers names with multiple dots (only the last suffix is replaced) and names
with no extension at all (`.pdf` is appended). -/
theorem spec_C6 (input : String) (h : pathName input ≠ "") :
    default_output_path none input
      = Except.ok (pathStr (pathRoot input)
          ((pathComponents input).dropLast ++ [pyStem (pathName input) ++ ".pdf"])) := by
  have hnew : (if pySuffix (pathName input) = "" then pathName input ++ ".pdf"
      else strTake (pathName input)
        ((pathName input).length - (pySuffix (pathName input)).length) ++ ".pdf")
      = pyStem (pathName input) ++ ".pdf" := by
    by_cases hold : pySuffix (pathName input) = ""
    · rw [if_pos hold]
      have hstem : pyStem (pathName input) = pathName input := by
        unfold pyStem
        rw [hold]
        show strTake (pathName input) ((pathName input).length - 0) = _
        rw [Nat.sub_zero, strTake_length]
      rw [hstem]
    · rw [if_neg hold]
      rfl
  show with_suffix input ".pdf" = _
  unfold with_suffix
  rw [if_neg (by decide), if_neg (by decide), if_neg h]
  show Except.ok (pathStr (pathRoot input) ((pathComponents input).dropLast ++
      [if pySuffix (pathName input) = "" then pathName input ++ ".pdf"
       else strTake (pathName input)
         ((pathName input).length - (pySuffix (pathName input)).length) ++ ".pdf"])) = _
  rw [hnew]

theorem spec_C6_witness :
    (pathName "report.md" ≠ "" ∧
      default_output_path none "report.md" = Except.ok "report.pdf")
    ∧ (pathName "a/b/archive.tar.gz" ≠ "" ∧
      default_output_path none "a/b/archive.tar.gz" = Except.ok "a/b/archive.tar.pdf")
    ∧ (pathName "/x/README" ≠ "" ∧
      default_output_path none "/x/README" = Except.ok "/x/README.pdf") := by
  refine ⟨⟨by decide, ?_⟩, ⟨by decide, ?_⟩, ⟨by decide, ?_⟩⟩
  · rw [spec_C6 "report.md" (by decide)]
    rfl
  · rw [spec_C6 "a/b/archive.tar.gz" (by decide)]
    rfl
  · rw [spec_C6 "/x/README" (by decide)]
    rfl

theorem countOcc_chain10 (pat s1 s2 s3 s4 s5 s6 s7 s8 s9 s10 : List Char)
    (h1 : SuffixClean pat s1) (h2 : NoSpan pat s3) (h3 : SuffixClean pat s3)
    (h4 : NoSpan pat s5) (h5 : SuffixClean pat s5) (h6 : SuffixClean pat s6)
    (h7 : SuffixClean pat s7) (h8 : SuffixClean pat s8) (h9 : SuffixClean pat s9) :
    countOcc pat (s1 ++ (s2 ++ (s3 ++ (s4 ++ (s5 ++ (s6 ++ (s7 ++ (s8 ++ (s9 ++ s10)))))))))
      = countOcc pat s1 + countOcc pat s2 + countOcc pat s3 + countOcc pat s4
        + countOcc pat s5 + countOcc pat s6 + countOcc pat s7 + countOcc pat s8
        + countOcc pat s9 + countOcc pat s10 := by
  rw [countOcc_append_concrete s1 _ h1,
    countOcc_append_sym s2 s3 _ h2,
    countOcc_append_concrete s3 _ h3,
    countOcc_append_sym s4 s5 _ h4,
    countOcc_append_concrete s5 _ h5,
    countOcc_append_concrete s6 _ h6,
    countOcc_append_concrete s7 _ h7,
    countOcc_append_concrete s8 _ h8,
    countOcc_append_concrete s9 _ h9]
  omega

theorem countOcc_chain6 (pat s1 s2 s3 s4 s5 s6 : List Char)
    (h1 : SuffixClean pat s1) (h2 : NoSpan pat s3) (h3 : SuffixClean pat s3)
    (h4 : NoSpan pat s5) (h5 : SuffixClean pat s5) :
    countOcc pat (s1 ++ (s2 ++ (s3 ++ (s4 ++ (s5 ++ s6)))))
      = countOcc pat s1 + countOcc pat s2 + countOcc pat s3 + countOcc pat s4
        + countOcc pat s5 + countOcc pat s6 := by
  rw [countOcc_append_concrete s1 _ h1,
    countOcc_append_sym s2 s3 _ h2,
    countOcc_append_concrete s3 _ h3,
    countOcc_append_sym s4 s5 _ h4,
    countOcc_append_concrete s5 _ h5]
  omega

/-- Claim C7: for every `.ttf` file in the bundled fonts directory, the
font-face layer emits exactly one `@font-face` declaration (first conjunct:
one rule per `.ttf` entry); the declaration binds the family name — the
first hyphen-delimited segment of the filename stem — and the file's
location (second conjunct, the exact shape of every rule); and it carries
the fixed emoji unicode-range list exactly when the lower-cased family name
contains `"emoji"` (third conjunct).  The two hypotheses state that neither
the family name nor the font URL happens to contain the literal text
`unicode-range`, which holds for every real font filename. -/
theorem spec_C7 (uri : String → String) (files : List String) (fname : String)
    (hfam : strContains (font_family fname) "unicode-range" = false)
    (huri : strContains (uri fname) "unicode-range" = false) :
    ((ttf_files files).map (font_face_rule uri)).length
        = (files.filter (fun f => strEndsWith f ".ttf")).length
    ∧ font_face_rule uri fname
        = "@font-face \x7b font-family: \"" ++ font_family fname ++ "\"; src: url(\""
            ++ uri fname ++ "\");"
            ++ (if strContains (font_family fname).toLower "emoji" then
                  " unicode-range: " ++ _EMOJI_UNICODE_RANGE ++ ";" else "")
            ++ " \x7d"
    ∧ strContains (font_face_rule uri fname) "unicode-range"
        = strContains (font_family fname).toLower "emoji" := by
  have hfam0 : countOcc "unicode-range".data (font_family fname).data = 0 := by
    simpa [strContains] using hfam
  have huri0 : countOcc "unicode-range".data (uri fname).data = 0 := by
    simpa [strContains] using huri
  refine ⟨?_, rfl, ?_⟩
  · rw [List.length_map]
    exact (List.perm_insertionSort _ _).length_eq
  · rcases hemo : strContains (font_family fname).toLower "emoji" with _ | _
    · have hrule : font_face_rule uri fname
          = "@font-face \x7b font-family: \"" ++ font_family fname ++ "\"; src: url(\""
              ++ uri fname ++ "\");" ++ " \x7d" := by
        show ("@font-face \x7b font-family: \"" ++ font_family fname ++ "\"; src: url(\""
              ++ uri fname ++ "\");"
              ++ (if strContains (font_family fname).toLower "emoji" then
                    " unicode-range: " ++ _EMOJI_UNICODE_RANGE ++ ";" else "")
              ++ " \x7d") = _
        rw [if_neg (by rw [hemo]; exact Bool.false_ne_true), String.append_empty]
      rw [hrule]
      unfold strContains
      simp only [String.data_append, List.append_assoc]
      rw [countOcc_chain6 "unicode-range".data _ _ _ _ _ _
        (by decide) (by decide) (by decide) (by decide) (by decide)]
      rw [hfam0, huri0]
      rw [show countOcc "unicode-range".data "@font-face \x7b font-family: \"".data = 0
          from by decide,
        show countOcc "unicode-range".data "\"; src: url(\"".data = 0 from by decide,
        show countOcc "unicode-range".data "\");".data = 0 from by decide,
        show countOcc "unicode-range".data " \x7d".data = 0 from by decide]
      rfl
    · have hrule : font_face_rule uri fname
          = "@font-face \x7b font-family: \"" ++ font_family fname ++ "\"; src: url(\""
              ++ uri fname ++ "\");"
              ++ (" unicode-range: " ++ (emojiRangeChunk1 ++ emojiRangeChunk2) ++ ";")
              ++ " \x7d" := by
        show ("@font-face \x7b font-family: \"" ++ font_family fname ++ "\"; src: url(\""
              ++ uri fname ++ "\");"
              ++ (if strContains (font_family fname).toLower "emoji" then
                    " unicode-range: " ++ _EMOJI_UNICODE_RANGE ++ ";" else "")
              ++ " \x7d") = _
        rw [if_pos hemo]
        rfl
      rw [hrule]
      unfold strContains
      simp only [String.data_append, List.append_assoc]
      rw [countOcc_chain10 "unicode-range".data _ _ _ _ _ _ _ _ _ _
        (by decide) (by decide) (by decide) (by decide) (by decide)
        (by decide) (by decide) (by decide) (by decide)]
      rw [hfam0, huri0]
      rw [show countOcc "unicode-range".data "@font-face \x7b font-family: \"".data = 0
          from by decide,
        show countOcc "unicode-range".data "\"; src: url(\"".data = 0 from by decide,
        show countOcc "unicode-range".data "\");".data = 0 from by decide,
        show countOcc "unicode-range".data " unicode-range: ".data = 1 from by decide,
        show countOcc "unicode-range".data emojiRangeChunk1.data = 0 from by decide,
        show countOcc "unicode-range".data emojiRangeChunk2.data = 0 from by decide,
        show countOcc "unicode-range".data ";".data = 0 from by decide,
        show countOcc "unicode-range".data " \x7d".data = 0 from by decide]
      rfl

theorem spec_C7_witness :
    strContains (font_family "NotoColorEmoji-Regular.ttf") "unicode-range" = false ∧
    strContains ("file:///fonts/" ++ "NotoColorEmoji-Regular.ttf") "unicode-range" = false ∧
    strContains
        (font_face_rule (fun s => "file:///fonts/" ++ s) "NotoColorEmoji-Regular.ttf")
        "unicode-range"
      = strContains (font_family "NotoColorEmoji-Regular.ttf").toLower "emoji" :=
  ⟨by decide, by decide,
    (spec_C7 (fun s => "file:///fonts/" ++ s) ["NotoColorEmoji-Regular.ttf"]
      "NotoColorEmoji-Regular.ttf" (by decide) (by decide)).2.2⟩

theorem countOcc_chain17 (pat s1 s2 s3 s4 s5 s6 s7 s8 s9 s10 s11 s12 s13 s14 s15 s16 s17 : List Char)
    (h1 : SuffixClean pat s1) (h2 : SuffixClean pat s2) (h3 : SuffixClean pat s3)
    (h4 : NoSpan pat s5) (h5 : SuffixClean pat s5) (h6 : SuffixClean pat s6)
    (h7 : SuffixClean pat s7) (h8 : SuffixClean pat s8) (h9 : SuffixClean pat s9)
    (h10 : SuffixClean pat s10) (h11 : SuffixClean pat s11) (h12 : SuffixClean pat s12)
    (h13 : SuffixClean pat s13) (h14 : NoSpan pat s15) (h15 : SuffixClean pat s15)
    (h16 : NoSpan pat s17) :
    countOcc pat (s1 ++ (s2 ++ (s3 ++ (s4 ++ (s5 ++ (s6 ++ (s7 ++ (s8 ++ (s9 ++ (s10 ++
        (s11 ++ (s12 ++ (s13 ++ (s14 ++ (s15 ++ (s16 ++ s17))))))))))))))))
      = countOcc pat s1 + countOcc pat s2 + countOcc pat s3 + countOcc pat s4
        + countOcc pat s5 + countOcc pat s6 + countOcc pat s7 + countOcc pat s8
        + countOcc pat s9 + countOcc pat s10 + countOcc pat s11 + countOcc pat s12
        + countOcc pat s13 + countOcc pat s14 + countOcc pat s15 + countOcc pat s16
        + countOcc pat s17 := by
  rw [countOcc_append_concrete s1 _ h1, countOcc_append_concrete s2 _ h2,
    countOcc_append_concrete s3 _ h3, countOcc_append_sym s4 s5 _ h4,
    countOcc_append_concrete s5 _ h5, countOcc_append_concrete s6 _ h6,
    countOcc_append_concrete s7 _ h7, countOcc_append_concrete s8 _ h8,
    countOcc_append_concrete s9 _ h9, countOcc_append_concrete s10 _ h10,
    countOcc_append_concrete s11 _ h11, countOcc_append_concrete s12 _ h12,
    countOcc_append_concrete s13 _ h13, countOcc_append_sym s14 s15 _ h14,
    countOcc_append_concrete s15 _ h15, countOcc_append_sym2 s16 s17 h16]
  omega

theorem countOcc_chain15 (pat s1 s2 s3 s4 s5 s6 s7 s8 s9 s10 s11 s12 s13 s14 s15 : List Char)
    (h1 : SuffixClean pat s1) (h2 : SuffixClean pat s2) (h3 : SuffixClean pat s3)
    (h4 : NoSpan pat s5) (h5 : SuffixClean pat s5) (h6 : SuffixClean pat s6)
    (h7 : SuffixClean pat s7) (h8 : SuffixClean pat s8) (h9 : SuffixClean pat s9)
    (h10 : SuffixClean pat s10) (h11 : SuffixClean pat s11) (h12 : SuffixClean pat s12)
    (h13 : SuffixClean pat s13) (h14 : NoSpan pat s15) :
    countOcc pat (s1 ++ (s2 ++ (s3 ++ (s4 ++ (s5 ++ (s6 ++ (s7 ++ (s8 ++ (s9 ++ (s10 ++
        (s11 ++ (s12 ++ (s13 ++ (s14 ++ s15))))))))))))))
      = countOcc pat s1 + countOcc pat s2 + countOcc pat s3 + countOcc pat s4
        + countOcc pat s5 + countOcc pat s6 + countOcc pat s7 + countOcc pat s8
        + countOcc pat s9 + countOcc pat s10 + countOcc pat s11 + countOcc pat s12
        + countOcc pat s13 + countOcc pat s14 + countOcc pat s15 := by
  rw [countOcc_append_concrete s1 _ h1, countOcc_append_concrete s2 _ h2,
    countOcc_append_concrete s3 _ h3, countOcc_append_sym s4 s5 _ h4,
    countOcc_append_concrete s5 _ h5, countOcc_append_concrete s6 _ h6,
    countOcc_append_concrete s7 _ h7, countOcc_append_concrete s8 _ h8,
    countOcc_append_concrete s9 _ h9, countOcc_append_concrete s10 _ h10,
    countOcc_append_concrete s11 _ h11, countOcc_append_concrete s12 _ h12,
    countOcc_append_concrete s13 _ h13, countOcc_append_sym2 s14 s15 h14]
  omega

/-- Occurrence count of a pattern over the assembled document, as the sum of
the counts of its seventeen segments (fixed template parts, the chunks of the
structural CSS, the selected page-size token and theme block, and the
interpolated margin, Pygments CSS and body). -/
theorem countOcc_build_html_sum (pat : List Char) (body pyg mode size margin : String)
    (h1 : SuffixClean pat HTML_PRE.data)
    (h2a : SuffixClean pat "letter".data) (h2b : SuffixClean pat "A4".data)
    (h3 : SuffixClean pat HTML_MARGIN.data)
    (h4 : NoSpan pat HTML_STYLE_OPEN.data) (h5 : SuffixClean pat HTML_STYLE_OPEN.data)
    (h6 : SuffixClean pat cssBaseChunk1.data) (h7 : SuffixClean pat cssBaseChunk2.data)
    (h8 : SuffixClean pat cssBaseChunk3.data) (h9 : SuffixClean pat cssBaseChunk4.data)
    (h10 : SuffixClean pat cssBaseChunk5.data)
    (h11 : SuffixClean pat STYLE_JOIN.data)
    (h12a : SuffixClean pat GITHUB_CSS_LIGHT.data) (h12b : SuffixClean pat GITHUB_CSS_DARK.data)
    (h14 : NoSpan pat HTML_BODY_OPEN.data) (h15 : SuffixClean pat HTML_BODY_OPEN.data)
    (h16 : NoSpan pat HTML_CLOSE.data) :
    countOcc pat (_build_html body pyg mode size margin).data
      = countOcc pat HTML_PRE.data + countOcc pat (page_size size).data
        + countOcc pat HTML_MARGIN.data + countOcc pat margin.data
        + countOcc pat HTML_STYLE_OPEN.data
        + countOcc pat cssBaseChunk1.data + countOcc pat cssBaseChunk2.data
        + countOcc pat cssBaseChunk3.data + countOcc pat cssBaseChunk4.data
        + countOcc pat cssBaseChunk5.data
        + countOcc pat STYLE_JOIN.data + countOcc pat (theme_css mode).data
        + countOcc pat STYLE_JOIN.data + countOcc pat pyg.data
        + countOcc pat HTML_BODY_OPEN.data + countOcc pat body.data
        + countOcc pat HTML_CLOSE.data := by
  have hps : page_size size = "letter" ∨ page_size size = "A4" := by
    unfold page_size; by_cases h : size = "LETTER" <;> simp [h]
  have hth : theme_css mode = GITHUB_CSS_LIGHT ∨ theme_css mode = GITHUB_CSS_DARK := by
    unfold theme_css; by_cases h : mode = "LIGHT" <;> simp [h]
  unfold _build_html GITHUB_CSS_BASE
  rcases hps with h2 | h2 <;> rcases hth with h12 | h12 <;> rw [h2, h12] <;>
    simp only [String.data_append, List.append_assoc]
  · exact countOcc_chain17 pat _ _ _ _ _ _ _ _ _ _ _ _ _ _ _ _ _
      h1 h2a h3 h4 h5 h6 h7 h8 h9 h10 h11 h12a h11 h14 h15 h16
  · exact countOcc_chain17 pat _ _ _ _ _ _ _ _ _ _ _ _ _ _ _ _ _
      h1 h2a h3 h4 h5 h6 h7 h8 h9 h10 h11 h12b h11 h14 h15 h16
  · exact countOcc_chain17 pat _ _ _ _ _ _ _ _ _ _ _ _ _ _ _ _ _
      h1 h2b h3 h4 h5 h6 h7 h8 h9 h10 h11 h12a h11 h14 h15 h16
  · exact countOcc_chain17 pat _ _ _ _ _ _ _ _ _ _ _ _ _ _ _ _ _
      h1 h2b h3 h4 h5 h6 h7 h8 h9 h10 h11 h12b h11 h14 h15 h16

/-- Occurrence count of a pattern over the document head, as the sum of the
counts of its fifteen segments. -/
theorem countOcc_build_head_sum (pat : List Char) (pyg mode size margin : String)
    (h1 : SuffixClean pat HTML_PRE.data)
    (h2a : SuffixClean pat "letter".data) (h2b : SuffixClean pat "A4".data)
    (h3 : SuffixClean pat HTML_MARGIN.data)
    (h4 : NoSpan pat HTML_STYLE_OPEN.data) (h5 : SuffixClean pat HTML_STYLE_OPEN.data)
    (h6 : SuffixClean pat cssBaseChunk1.data) (h7 : SuffixClean pat cssBaseChunk2.data)
    (h8 : SuffixClean pat cssBaseChunk3.data) (h9 : SuffixClean pat cssBaseChunk4.data)
    (h10 : SuffixClean pat cssBaseChunk5.data)
    (h11 : SuffixClean pat STYLE_JOIN.data)
    (h12a : SuffixClean pat GITHUB_CSS_LIGHT.data) (h12b : SuffixClean pat GITHUB_CSS_DARK.data)
    (h14 : NoSpan pat HEAD_CLOSE.data) :
    countOcc pat (build_html_head pyg mode size margin).data
      = countOcc pat HTML_PRE.data + countOcc pat (page_size size).data
        + countOcc pat HTML_MARGIN.data + countOcc pat margin.data
        + countOcc pat HTML_STYLE_OPEN.data
        + countOcc pat cssBaseChunk1.data + countOcc pat cssBaseChunk2.data
        + countOcc pat cssBaseChunk3.data + countOcc pat cssBaseChunk4.data
        + countOcc pat cssBaseChunk5.data
        + countOcc pat STYLE_JOIN.data + countOcc pat (theme_css mode).data
        + countOcc pat STYLE_JOIN.data + countOcc pat pyg.data
        + countOcc pat HEAD_CLOSE.data := by
  have hps : page_size size = "letter" ∨ page_size size = "A4" := by
    unfold page_size; by_cases h : size = "LETTER" <;> simp [h]
  have hth : theme_css mode = GITHUB_CSS_LIGHT ∨ theme_css mode = GITHUB_CSS_DARK := by
    unfold theme_css; by_cases h : mode = "LIGHT" <;> simp [h]
  unfold build_html_head GITHUB_CSS_BASE
  rcases hps with h2 | h2 <;> rcases hth with h12 | h12 <;> rw [h2, h12] <;>
    simp only [String.data_append, List.append_assoc]
  · exact countOcc_chain15 pat _ _ _ _ _ _ _ _ _ _ _ _ _ _ _
      h1 h2a h3 h4 h5 h6 h7 h8 h9 h10 h11 h12a h11 h14
  · exact countOcc_chain15 pat _ _ _ _ _ _ _ _ _ _ _ _ _ _ _
      h1 h2a h3 h4 h5 h6 h7 h8 h9 h10 h11 h12b h11 h14
  · exact countOcc_chain15 pat _ _ _ _ _ _ _ _ _ _ _ _ _ _ _
      h1 h2b h3 h4 h5 h6 h7 h8 h9 h10 h11 h12a h11 h14
  · exact countOcc_chain15 pat _ _ _ _ _ _ _ _ _ _ _ _ _ _ _
      h1 h2b h3 h4 h5 h6 h7 h8 h9 h10 h11 h12b h11 h14

theorem countOcc_atPage_build_html (body pyg mode size margin : String)
    (hm : countOcc "@page".data margin.data = 0)
    (hp : countOcc "@page".data pyg.data = 0)
    (hb : countOcc "@page".data body.data = 0) :
    countOcc "@page".data (_build_html body pyg mode size margin).data = 1 := by
  have hsz : countOcc "@page".data (page_size size).data = 0 := by
    unfold page_size
    by_cases h : size = "LETTER"
    · rw [if_pos h]; decide
    · rw [if_neg h]; decide
  have hth : countOcc "@page".data (theme_css mode).data = 0 := by
    unfold theme_css
    by_cases h : mode = "LIGHT"
    · rw [if_pos h]; decide
    · rw [if_neg h]; decide
  rw [countOcc_build_html_sum "@page".data body pyg mode size margin
      (by decide) (by decide) (by decide) (by decide) (by decide) (by decide)
      (by decide) (by decide) (by decide) (by decide) (by decide) (by decide)
      (by decide) (by decide) (by decide) (by decide) (by decide),
    hm, hp, hb, hsz, hth,
    show countOcc "@page".data HTML_PRE.data = 1 from by decide,
    show countOcc "@page".data HTML_MARGIN.data = 0 from by decide,
    show countOcc "@page".data HTML_STYLE_OPEN.data = 0 from by decide,
    show countOcc "@page".data cssBaseChunk1.data = 0 from by decide,
    show countOcc "@page".data cssBaseChunk2.data = 0 from by decide,
    show countOcc "@page".data cssBaseChunk3.data = 0 from by decide,
    show countOcc "@page".data cssBaseChunk4.data = 0 from by decide,
    show countOcc "@page".data cssBaseChunk5.data = 0 from by decide,
    show countOcc "@page".data STYLE_JOIN.data = 0 from by decide,
    show countOcc "@page".data HTML_BODY_OPEN.data = 0 from by decide,
    show countOcc "@page".data HTML_CLOSE.data = 0 from by decide]

theorem countOcc_link_build_html (body pyg mode size margin : String)
    (hm : countOcc "<link".data margin.data = 0)
    (hp : countOcc "<link".data pyg.data = 0)
    (hb : countOcc "<link".data body.data = 0) :
    countOcc "<link".data (_build_html body pyg mode size margin).data = 0 := by
  have hsz : countOcc "<link".data (page_size size).data = 0 := by
    unfold page_size
    by_cases h : size = "LETTER"
    · rw [if_pos h]; decide
    · rw [if_neg h]; decide
  have hth : countOcc "<link".data (theme_css mode).data = 0 := by
    unfold theme_css
    by_cases h : mode = "LIGHT"
    · rw [if_pos h]; decide
    · rw [if_neg h]; decide
  rw [countOcc_build_html_sum "<link".data body pyg mode size margin
      (by decide) (by decide) (by decide) (by decide) (by decide) (by decide)
      (by decide) (by decide) (by decide) (by decide) (by decide) (by decide)
      (by decide) (by decide) (by decide) (by decide) (by decide),
    hm, hp, hb, hsz, hth,
    show countOcc "<link".data HTML_PRE.data = 0 from by decide,
    show countOcc "<link".data HTML_MARGIN.data = 0 from by decide,
    show countOcc "<link".data HTML_STYLE_OPEN.data = 0 from by decide,
    show countOcc "<link".data cssBaseChunk1.data = 0 from by decide,
    show countOcc "<link".data cssBaseChunk2.data = 0 from by decide,
    show countOcc "<link".data cssBaseChunk3.data = 0 from by decide,
    show countOcc "<link".data cssBaseChunk4.data = 0 from by decide,
    show countOcc "<link".data cssBaseChunk5.data = 0 from by decide,
    show countOcc "<link".data STYLE_JOIN.data = 0 from by decide,
    show countOcc "<link".data HTML_BODY_OPEN.data = 0 from by decide,
    show countOcc "<link".data HTML_CLOSE.data = 0 from by decide]

theorem countOcc_script_build_html (body pyg mode size margin : String)
    (hm : countOcc "<script".data margin.data = 0)
    (hp : countOcc "<script".data pyg.data = 0)
    (hb : countOcc "<script".data body.data = 0) :
    countOcc "<script".data (_build_html body pyg mode size margin).data = 0 := by
  have hsz : countOcc "<script".data (page_size size).data = 0 := by
    unfold page_size
    by_cases h : size = "LETTER"
    · rw [if_pos h]; decide
    · rw [if_neg h]; decide
  have hth : countOcc "<script".data (theme_css mode).data = 0 := by
    unfold theme_css
    by_cases h : mode = "LIGHT"
    · rw [if_pos h]; decide
    · rw [if_neg h]; decide
  rw [countOcc_build_html_sum "<script".data body pyg mode size margin
      (by decide) (by decide) (by decide) (by decide) (by decide) (by decide)
      (by decide) (by decide) (by decide) (by decide) (by decide) (by decide)
      (by decide) (by decide) (by decide) (by decide) (by decide),
    hm, hp, hb, hsz, hth,
    show countOcc "<script".data HTML_PRE.data = 0 from by decide,
    show countOcc "<script".data HTML_MARGIN.data = 0 from by decide,
    show countOcc "<script".data HTML_STYLE_OPEN.data = 0 from by decide,
    show countOcc "<script".data cssBaseChunk1.data = 0 from by decide,
    show countOcc "<script".data cssBaseChunk2.data = 0 from by decide,
    show countOcc "<script".data cssBaseChunk3.data = 0 from by decide,
    show countOcc "<script".data cssBaseChunk4.data = 0 from by decide,
    show countOcc "<script".data cssBaseChunk5.data = 0 from by decide,
    show countOcc "<script".data STYLE_JOIN.data = 0 from by decide,
    show countOcc "<script".data HTML_BODY_OPEN.data = 0 from by decide,
    show countOcc "<script".data HTML_CLOSE.data = 0 from by decide]

theorem countOcc_styleOpen_build_head (pyg mode size margin : String)
    (hm : countOcc "<style>".data margin.data = 0)
    (hp : countOcc "<style>".data pyg.data = 0) :
    countOcc "<style>".data (build_html_head pyg mode size margin).data = 4 := by
  have hsz : countOcc "<style>".data (page_size size).data = 0 := by
    unfold page_size
    by_cases h : size = "LETTER"
    · rw [if_pos h]; decide
    · rw [if_neg h]; decide
  have hth : countOcc "<style>".data (theme_css mode).data = 0 := by
    unfold theme_css
    by_cases h : mode = "LIGHT"
    · rw [if_pos h]; decide
    · rw [if_neg h]; decide
  rw [countOcc_build_head_sum "<style>".data pyg mode size margin
      (by decide) (by decide) (by decide) (by decide) (by decide) (by decide)
      (by decide) (by decide) (by decide) (by decide) (by decide) (by decide)
      (by decide) (by decide) (by decide),
    hm, hp, hsz, hth,
    show countOcc "<style>".data HTML_PRE.data = 1 from by decide,
    show countOcc "<style>".data HTML_MARGIN.data = 0 from by decide,
    show countOcc "<style>".data HTML_STYLE_OPEN.data = 1 from by decide,
    show countOcc "<style>".data cssBaseChunk1.data = 0 from by decide,
    show countOcc "<style>".data cssBaseChunk2.data = 0 from by decide,
    show countOcc "<style>".data cssBaseChunk3.data = 0 from by decide,
    show countOcc "<style>".data cssBaseChunk4.data = 0 from by decide,
    show countOcc "<style>".data cssBaseChunk5.data = 0 from by decide,
    show countOcc "<style>".data STYLE_JOIN.data = 1 from by decide,
    show countOcc "<style>".data HEAD_CLOSE.data = 0 from by decide]

theorem countOcc_styleClose_build_head (pyg mode size margin : String)
    (hm : countOcc "</style>".data margin.data = 0)
    (hp : countOcc "</style>".data pyg.data = 0) :
    countOcc "</style>".data (build_html_head pyg mode size margin).data = 4 := by
  have hsz : countOcc "</style>".data (page_size size).data = 0 := by
    unfold page_size
    by_cases h : size = "LETTER"
    · rw [if_pos h]; decide
    · rw [if_neg h]; decide
  have hth : countOcc "</style>".data (theme_css mode).data = 0 := by
    unfold theme_css
    by_cases h : mode = "LIGHT"
    · rw [if_pos h]; decide
    · rw [if_neg h]; decide
  rw [countOcc_build_head_sum "</style>".data pyg mode size margin
      (by decide) (by decide) (by decide) (by decide) (by decide) (by decide)
      (by decide) (by decide) (by decide) (by decide) (by decide) (by decide)
      (by decide) (by decide) (by decide),
    hm, hp, hsz, hth,
    show countOcc "</style>".data HTML_PRE.data = 0 from by decide,
    show countOcc "</style>".data HTML_MARGIN.data = 0 from by decide,
    show countOcc "</style>".data HTML_STYLE_OPEN.data = 1 from by decide,
    show countOcc "</style>".data cssBaseChunk1.data = 0 from by decide,
    show countOcc "</style>".data cssBaseChunk2.data = 0 from by decide,
    show countOcc "</style>".data cssBaseChunk3.data = 0 from by decide,
    show countOcc "</style>".data cssBaseChunk4.data = 0 from by decide,
    show countOcc "</style>".data cssBaseChunk5.data = 0 from by decide,
    show countOcc "</style>".data STYLE_JOIN.data = 1 from by decide,
    show countOcc "</style>".data HEAD_CLOSE.data = 1 from by decide]

/-- Claim C2: for every size string and margin value, the assembled document
contains exactly one `@page` rule; its size token is `"letter"` when
`size = "LETTER"` and `"A4"` for any other size value, and the supplied
margin is injected verbatim as an inch quantity (`<margin>in`), with no
bounds validation — `_build_html` is total, so negative or zero margins are
not rejected.  The hypotheses say that the interpolated texts do not
themselves contain `@page`, which holds for every numeric margin rendering,
every Pygments stylesheet and every rendered Markdown body. -/
theorem spec_C2 (body pyg mode size margin : String)
    (hm : countOcc "@page".data margin.data = 0)
    (hp : countOcc "@page".data pyg.data = 0)
    (hb : countOcc "@page".data body.data = 0) :
    (∃ rest : String, _build_html body pyg mode size margin
        = "<!DOCTYPE html>\n<html lang=\"en\">\n<head>\n<meta charset=\"utf-8\">\n<style>@page \x7b size: "
          ++ (if size = "LETTER" then "letter" else "A4")
          ++ "; margin: " ++ margin ++ "in; \x7d</style>" ++ rest)
    ∧ countOcc "@page".data (_build_html body pyg mode size margin).data = 1 := by
  constructor
  · refine ⟨"\n<style>" ++ GITHUB_CSS_BASE ++ STYLE_JOIN ++ theme_css mode ++ STYLE_JOIN
      ++ pyg ++ HTML_BODY_OPEN ++ body ++ HTML_CLOSE, ?_⟩
    unfold _build_html page_size HTML_PRE HTML_MARGIN
    rw [show HTML_STYLE_OPEN = "in; \x7d</style>" ++ "\n<style>" from rfl]
    simp only [String.append_assoc]
  · exact countOcc_atPage_build_html body pyg mode size margin hm hp hb

theorem spec_C2_witness :
    (countOcc "@page".data "-0.5".data = 0
      ∧ countOcc "@page".data ".x \x7b color: red; \x7d".data = 0
      ∧ countOcc "@page".data "<h1>t</h1>".data = 0)
    ∧ countOcc "@page".data
        (_build_html "<h1>t</h1>" ".x \x7b color: red; \x7d" "DARK" "B5" "-0.5").data = 1 :=
  ⟨⟨by decide, by decide, by decide⟩,
    (spec_C2 "<h1>t</h1>" ".x \x7b color: red; \x7d" "DARK" "B5" "-0.5"
      (by decide) (by decide) (by decide)).2⟩

/-- Claim C5: the assembled output is one complete self-contained HTML5
document.  First conjunct: the document is the head followed by `<body>`,
the body fragment verbatim (no escaping — plain string concatenation) and
the closing tags.  Second conjunct: the head consists of the fixed preamble
with the single `@page` rule, then exactly one `<style>` element per
stylesheet layer in the fixed order structural (`GITHUB_CSS_BASE`), theme,
syntax-highlight.  Remaining conjuncts: the whole document contains exactly
one `@page` rule, the head contains exactly four `<style>`/`</style>` tag
pairs (the `@page` wrapper plus one per layer), and the document contains no
`<link` or `<script` text, hence no external stylesheet or script
references.  The hypotheses say the interpolated texts contain none of the
counted tokens, which holds for the module's real inputs (numeric margins,
Pygments CSS, rendered Markdown bodies free of raw `<style>`, `<link`,
`<script>` markup); the assembled HTML references no external resources
(the font-face layer with its `url()` references is handed to the
rasterizer separately and is not part of this document). -/
theorem spec_C5 (body pyg mode size margin : String)
    (hm1 : countOcc "@page".data margin.data = 0)
    (hp1 : countOcc "@page".data pyg.data = 0)
    (hb1 : countOcc "@page".data body.data = 0)
    (hm2 : countOcc "<style>".data margin.data = 0)
    (hp2 : countOcc "<style>".data pyg.data = 0)
    (hm3 : countOcc "</style>".data margin.data = 0)
    (hp3 : countOcc "</style>".data pyg.data = 0)
    (hm4 : countOcc "<link".data margin.data = 0)
    (hp4 : countOcc "<link".data pyg.data = 0)
    (hb4 : countOcc "<link".data body.data = 0)
    (hm5 : countOcc "<script".data margin.data = 0)
    (hp5 : countOcc "<script".data pyg.data = 0)
    (hb5 : countOcc "<script".data body.data = 0) :
    _build_html body pyg mode size margin
        = build_html_head pyg mode size margin
          ++ "<body>\n" ++ body ++ "\n</body>\n</html>"
    ∧ build_html_head pyg mode size margin
        = "<!DOCTYPE html>\n<html lang=\"en\">\n<head>\n<meta charset=\"utf-8\">\n<style>@page \x7b size: "
          ++ page_size size ++ "; margin: " ++ margin ++ "in; \x7d</style>"
          ++ ("\n<style>" ++ GITHUB_CSS_BASE ++ "</style>")
          ++ ("\n<style>" ++ theme_css mode ++ "</style>")
          ++ ("\n<style>" ++ pyg ++ "</style>")
          ++ "\n</head>\n"
    ∧ countOcc "@page".data (_build_html body pyg mode size margin).data = 1
    ∧ countOcc "<style>".data (build_html_head pyg mode size margin).data = 4
    ∧ countOcc "</style>".data (build_html_head pyg mode size margin).data = 4
    ∧ countOcc "<link".data (_build_html body pyg mode size margin).data = 0
    ∧ countOcc "<script".data (_build_html body pyg mode size margin).data = 0 := by
  refine ⟨?_, ?_,
    countOcc_atPage_build_html body pyg mode size margin hm1 hp1 hb1,
    countOcc_styleOpen_build_head pyg mode size margin hm2 hp2,
    countOcc_styleClose_build_head pyg mode size margin hm3 hp3,
    countOcc_link_build_html body pyg mode size margin hm4 hp4 hb4,
    countOcc_script_build_html body pyg mode size margin hm5 hp5 hb5⟩
  · rw [build_html_head_spec body pyg mode size margin]
    rfl
  · unfold build_html_head HTML_PRE HTML_MARGIN
    rw [show HTML_STYLE_OPEN = "in; \x7d</style>" ++ "\n<style>" from rfl,
      show STYLE_JOIN = "</style>" ++ "\n<style>" from rfl,
      show HEAD_CLOSE = "</style>" ++ "\n</head>\n" from rfl]
    simp only [String.append_assoc]

theorem spec_C5_witness :
    (countOcc "@page".data "0.5".data = 0
      ∧ countOcc "@page".data ".x \x7b color: red; \x7d".data = 0
      ∧ countOcc "@page".data "<h1>Title</h1>".data = 0
      ∧ countOcc "<style>".data "0.5".data = 0
      ∧ countOcc "<style>".data ".x \x7b color: red; \x7d".data = 0
      ∧ countOcc "</style>".data "0.5".data = 0
      ∧ countOcc "</style>".data ".x \x7b color: red; \x7d".data = 0
      ∧ countOcc "<link".data "0.5".data = 0
      ∧ countOcc "<link".data ".x \x7b color: red; \x7d".data = 0
      ∧ countOcc "<link".data "<h1>Title</h1>".data = 0
      ∧ countOcc "<script".data "0.5".data = 0
      ∧ countOcc "<script".data ".x \x7b color: red; \x7d".data = 0
      ∧ countOcc "<script".data "<h1>Title</h1>".data = 0)
    ∧ countOcc "<style>".data
        (build_html_head ".x \x7b color: red; \x7d" "LIGHT" "LETTER" "0.5").data = 4 :=
  ⟨⟨by decide, by decide, by decide, by decide, by decide, by decide, by decide,
    by decide, by decide, by decide, by decide, by decide, by decide⟩,
    (spec_C5 "<h1>Title</h1>" ".x \x7b color: red; \x7d" "LIGHT" "LETTER" "0.5"
      (by decide) (by decide) (by decide) (by decide) (by decide) (by decide)
      (by decide) (by decide) (by decide) (by decide) (by decide) (by decide)
      (by decide)).2.2.2.1⟩

end MdPdf
